import Mathlib

/-!
Shallow embedding of `src/efivarfs.c` (the efivarfs backend of libefivar):
variable files live on a pseudo-filesystem, each file holding a 4-byte
native-order attribute word followed by the raw variable data.  The model
represents the filesystem as a directory mapping paths to file identities
(device number, inode number) plus a table mapping identities to inodes,
and a separate table of ESP (boot partition) files used by the
persistence-sync path.  Machine integers are `Nat` with explicit bounds;
fallible syscalls are driven by explicit oracle parameters so that every
control path of the C code is reachable in the model.
-/

set_option maxRecDepth 8192

namespace Efivarfs

/-- Value of `(size_t)-1` on the 64-bit targets the code is built for. -/
def SIZE_MAX : Nat := 2 ^ 64 - 1

def ENOENT : Nat := 2
def EIO : Nat := 5
def EBADF : Nat := 9
def EEXIST : Nat := 17
def EINVAL : Nat := 22
def ENOTTY : Nat := 25
def EOVERFLOW : Nat := 75

/-- Linux `FS_IMMUTABLE_FL` (0x00000010). -/
def FS_IMMUTABLE_FL : Nat := 16

/-- UEFI `EFI_VARIABLE_APPEND_WRITE` (0x00000040). -/
def EFI_VARIABLE_APPEND_WRITE : Nat := 64

/-- Canonical text of `GUID_FILE_STORE_VARS` from efivarfs.c. -/
def GUID_FILE_STORE_VARS : String := "b2ac5fc9-92b7-4acd-aeac-11e818c3130c"

/-- `NAME_RTSV` from efivarfs.c. -/
def NAME_RTSV : String := "RTStorageVolatile"

/-- Default efivarfs mount root (the resolved per-process root). -/
def efivarfs_root : String := "/sys/firmware/efi/efivars/"

/-- `make_efivarfs_path`: `<root><name>-<guid canonical text>`. -/
def make_efivarfs_path (guid name : String) : String :=
  efivarfs_root ++ name ++ "-" ++ guid

/-- Bytes of an ASCII string literal, for ESP path arithmetic. -/
def sbytes (s : String) : List Nat := s.toList.map Char.toNat

/-- Little-endian (native on the supported targets) value of a byte list. -/
def leDec : List Nat → Nat
  | [] => 0
  | b :: rest => b % 256 + 256 * leDec rest

/-- Little-endian 4-byte encoding of a 32-bit attribute word. -/
def leEnc4 (a : Nat) : List Nat :=
  [a % 256, a / 256 % 256, a / 65536 % 256, a / 16777216 % 256]

/-- Reading a byte buffer as a C string: everything before the first NUL. -/
def cstr (bs : List Nat) : List Nat := bs.takeWhile (fun b => b ≠ 0)

/-- First association for a key in a list of pairs (the model's lookup). -/
def assoc {α β : Type} [DecidableEq α] : List (α × β) → α → Option β
  | [], _ => none
  | (a, b) :: rest, k => if a = k then some b else assoc rest k

/-- File identity as returned by `fstat`: (st_dev, st_ino). -/
abbrev FileId := Nat × Nat

/-- An inode of the pseudo-filesystem: contents, attribute flags
(`FS_IOC_GETFLAGS` word) and permission bits. -/
structure Inode where
  content : List Nat
  flags : Nat
  mode : Nat
deriving DecidableEq, Repr

/-- The world the backend acts on: the efivarfs directory (path to file
identity), the inode table (identity to inode: open descriptors keep
identities meaningful even after an unlink), and the ESP files keyed by
their full path bytes. -/
structure World where
  dir : List (String × FileId)
  inodes : List (FileId × Inode)
  esp : List (List Nat × List Nat)
deriving DecidableEq, Repr

/-- Update the inode with the given identity in place. -/
def updIno (w : World) (id : FileId) (f : Inode → Inode) : World :=
  { w with inodes := w.inodes.map (fun p => if p.1 = id then (p.1, f p.2) else p) }

/-- Create a fresh file at `path` with the given identity and inode. -/
def createFile (w : World) (path : String) (id : FileId) (ino : Inode) : World :=
  { w with dir := (path, id) :: w.dir, inodes := (id, ino) :: w.inodes }

/-- `unlink`: remove the directory entry; the inode table is untouched
(open descriptors keep the inode alive). -/
def unlinkPath (w : World) (path : String) : World :=
  { w with dir := w.dir.filter (fun p => p.1 ≠ path) }

/-- Overwrite (creating if necessary) an ESP file. -/
def espSet (w : World) (key val : List Nat) : World :=
  { w with esp := (key, val) :: w.esp.filter (fun p => p.1 ≠ key) }

/-- Well-formed world: every directory entry has a backing inode. -/
def WF (w : World) : Prop := ∀ e ∈ w.dir, (assoc w.inodes e.2).isSome

instance (w : World) : Decidable (WF w) := List.decidableBAll _ _

/-- Observable syscall-level events of one backend call. -/
inductive Event where
  | openRO (path : String)
  | openW (path : String) (creat : Bool) (mode : Nat)
  | created (path : String) (mode : Nat)
  | clearImm (fd : FileId) (orig : Nat)
  | writeEv (fd : FileId) (bytes : List Nat)
  | unlinkEv (path : String)
  | restoreFlags (fd : Option FileId) (flags : Nat)
  | espWrite (file : List Nat) (bytes : List Nat)
deriving DecidableEq, Repr

/-- Result of `efivarfs_get_variable`. -/
structure GetResult where
  ret : Int
  errno : Nat
  attributes : Nat
  data : List Nat
  dataSize : Nat
  ratelimit : Nat
deriving DecidableEq, Repr

/-- `read_file` helper: reads the rest of the descriptor fully and pads one
extra NUL byte; returns the buffer and its size. -/
def read_file (rest : List Nat) : List Nat × Nat :=
  (rest ++ [0], rest.length + 1)

/-- `efivarfs_get_variable`: open read-only, read the 4-byte attribute word
(only a negative return from `read` is an error), read the remaining
payload with `read_file`, subtract the NUL pad from the size.  The final
errno is saved before the cleanup `close`/`free` and restored after them.
`attrReadErr`/`fileReadErr` are oracles making the two reads fail with the
given errno. -/
def efivarfs_get_variable (w : World) (euid : Nat)
    (attrReadErr fileReadErr : Option Nat)
    (guid name : String) (errno0 : Nat) : GetResult :=
  let ratelimit := if euid = 0 then 0 else 10000
  let path := make_efivarfs_path guid name
  match assoc w.dir path with
  | none =>
    { ret := -1, errno := ENOENT, attributes := 0, data := [], dataSize := 0,
      ratelimit := ratelimit }
  | some fid =>
    match assoc w.inodes fid with
    | none =>
      { ret := -1, errno := EIO, attributes := 0, data := [], dataSize := 0,
        ratelimit := ratelimit }
    | some ino =>
      match attrReadErr with
      | some e =>
        { ret := -1, errno := e, attributes := 0, data := [], dataSize := 0,
          ratelimit := ratelimit }
      | none =>
        let rc := min 4 ino.content.length
        let retAttributes := leDec (ino.content.take rc)
        match fileReadErr with
        | some e =>
          { ret := -1, errno := e, attributes := retAttributes, data := [],
            dataSize := 0, ratelimit := ratelimit }
        | none =>
          let rf := read_file (ino.content.drop rc)
          { ret := 0, errno := errno0, attributes := retAttributes,
            data := rf.1, dataSize := rf.2 - 1, ratelimit := ratelimit }

/-- `get_esp_filename`: read the reserved `RTStorageVolatile` variable; fail
if the payload size exceeds the destination capacity `sz`; otherwise
`memcpy` exactly `sz` bytes out of the returned buffer.  The buffer holds
the payload plus the one NUL byte `read_file` pads; `junk` models the heap
bytes that follow the allocation, which the copy reads when `sz` exceeds
the allocation.  Returns the copied bytes (or `none` on failure) and the
resulting errno. -/
def get_esp_filename_core (g : GetResult) (junk : List Nat) (sz : Nat) :
    Option (List Nat) × Nat :=
  if g.ret < 0 then (none, g.errno)
  else if sz < g.dataSize then (none, g.errno)
  else (some ((g.data ++ junk).take sz), g.errno)

def get_esp_filename (w : World) (junk : List Nat) (sz : Nat)
    (errno0 : Nat) : Option (List Nat) × Nat :=
  get_esp_filename_core
    (efivarfs_get_variable w 0 none none GUID_FILE_STORE_VARS NAME_RTSV errno0)
    junk sz

/-- Candidate ESP mount points, searched in order. -/
def esp_paths_b : List (List Nat) :=
  [sbytes "/boot/efi/", sbytes "/boot/", sbytes "/efi/"]

/-- Search loop of `get_esp_filepath`: `snprintf` into a `PATH_MAX` buffer
(return the error immediately if the formatted path would not fit), then
`stat`; the first existing candidate wins. -/
def get_esp_filepath_go (w : World) (filename : List Nat) :
    List (List Nat) → Option (List Nat)
  | [] => none
  | p :: rest =>
    let fp := p ++ filename
    if 4096 ≤ fp.length then none
    else if (assoc w.esp fp).isSome then some fp
    else get_esp_filepath_go w filename rest

/-- `get_esp_filepath`: find the first ESP candidate directory containing
`filename`. -/
def get_esp_filepath (w : World) (filename : List Nat) : Option (List Nat) :=
  get_esp_filepath_go w filename esp_paths_b

/-- Result of the persistence-sync step (and of `write_file`): the updated
world, the events, the errno left behind, and whether `write_file` called
`exit(1)` (short read of the source, or short write to the ESP file). -/
structure SyncResult where
  world : World
  events : List Event
  errno : Nat
  exited : Bool
deriving Repr

/-- `write_file`: open the `VarToFile` variable file, open (and thereby
truncate) the destination ESP file, skip the 4-byte attribute header and
stream the rest.  If the source cannot be opened the function returns
without touching the destination and without exiting; if the source is
shorter than 4 bytes the destination has already been truncated and the
process exits. -/
def write_file (w : World) (filepath : List Nat) (errno0 : Nat) : SyncResult :=
  let path := make_efivarfs_path GUID_FILE_STORE_VARS "VarToFile"
  match assoc w.dir path with
  | none => { world := w, events := [], errno := ENOENT, exited := false }
  | some fid =>
    match assoc w.inodes fid with
    | none => { world := w, events := [], errno := EIO, exited := false }
    | some ino =>
      if ino.content.length < 4 then
        { world := espSet w filepath [],
          events := [Event.espWrite filepath []], errno := errno0,
          exited := true }
      else
        { world := espSet w filepath (ino.content.drop 4),
          events := [Event.espWrite filepath (ino.content.drop 4)],
          errno := errno0, exited := false }

/-- `efi_update_var_file`: read the reserved filename variable (absent is a
silent no-op), locate the ESP file, and mirror the `VarToFile` payload
into it.  `junk` is the heap oracle of `get_esp_filename`; `PATH_MAX / 4`
is 1024. -/
def efi_update_var_file (w : World) (junk : List Nat) (errno0 : Nat) :
    SyncResult :=
  match get_esp_filename w junk 1024 errno0 with
  | (none, e) => { world := w, events := [], errno := e, exited := false }
  | (some fnBytes, e) =>
    match get_esp_filepath w (cstr fnBytes) with
    | none => { world := w, events := [], errno := e, exited := false }
    | some fp => write_file w fp e

/-- `efivarfs_set_fd_immutable`: read the flag word (a failing
`FS_IOC_GETFLAGS` with `ENOTTY` is treated as success), then issue
`FS_IOC_SETFLAGS` only if the immutable bit must change.  `flagsOk` models
whether the ioctls are supported. -/
def efivarfs_set_fd_immutable (w : World) (fd : FileId) (immutable : Bool)
    (flagsOk : Bool) : World × Int :=
  match assoc w.inodes fd with
  | none => (w, -1)
  | some ino =>
    if ¬ flagsOk then (w, 0)
    else if immutable ∧ ino.flags &&& FS_IMMUTABLE_FL = 0 then
      (updIno w fd (fun i => { i with flags := i.flags ||| FS_IMMUTABLE_FL }), 0)
    else if ¬ immutable ∧ ino.flags &&& FS_IMMUTABLE_FL ≠ 0 then
      (updIno w fd (fun i => { i with flags := i.flags &&& (SIZE_MAX - FS_IMMUTABLE_FL) }), 0)
    else (w, 0)

/-- `efivarfs_set_immutable`: open the path read-only (a failed open that is
not `ENOTTY` propagates the open's result), toggle the flag on the
descriptor, close, and preserve the errno across the close. -/
def efivarfs_set_immutable (w : World) (path : String) (immutable : Bool)
    (flagsOk : Bool) (errno0 : Nat) : World × Int × Nat :=
  match assoc w.dir path with
  | none => (w, -1, ENOENT)
  | some fd =>
    let r := efivarfs_set_fd_immutable w fd immutable flagsOk
    (r.1, r.2, errno0)

/-- Result of `efivarfs_del_variable`. -/
structure DelResult where
  ret : Int
  errno : Nat
  world : World
  events : List Event
  exited : Bool
deriving Repr

/-- `efivarfs_del_variable`: best-effort clear of the immutable flag,
`unlink`, then `efi_update_var_file` unconditionally; the `unlink` result
is returned and the errno left by the sync step is preserved across the
final `free`. -/
def efivarfs_del_variable (w : World) (junk : List Nat) (flagsOk : Bool)
    (guid name : String) (errno0 : Nat) : DelResult :=
  let path := make_efivarfs_path guid name
  let si := efivarfs_set_immutable w path false flagsOk errno0
  let afterUnlink :=
    match assoc si.1.dir path with
    | some _ => (unlinkPath si.1 path, (0 : Int), si.2.2)
    | none => (si.1, (-1 : Int), ENOENT)
  let sync := efi_update_var_file afterUnlink.1 junk afterUnlink.2.2
  { ret := afterUnlink.2.1, errno := sync.errno, world := sync.world,
    events := Event.unlinkEv path :: sync.events, exited := sync.exited }

/-- Result of `efivarfs_make_fd_mutable`. -/
structure MutResult where
  rc : Int
  origAttrs : Nat
  world : World
  errno : Nat
  cleared : Bool
deriving Repr

/-- `efivarfs_make_fd_mutable`: zero `*orig_attrs`, read the flags (a
failed `FS_IOC_GETFLAGS` returns -1 with `*orig_attrs` still 0), return
success at once if the immutable bit is clear, otherwise clear the bit
with `FS_IOC_SETFLAGS`.  `gfOk`/`sfOk` are the oracles for the two ioctls
and `failErrno` the errno a failing ioctl leaves behind. -/
def efivarfs_make_fd_mutable (w : World) (fd : FileId) (gfOk sfOk : Bool)
    (failErrno errno0 : Nat) : MutResult :=
  match assoc w.inodes fd with
  | none => { rc := -1, origAttrs := 0, world := w, errno := EBADF, cleared := false }
  | some ino =>
    if ¬ gfOk then
      { rc := -1, origAttrs := 0, world := w, errno := failErrno, cleared := false }
    else if ino.flags &&& FS_IMMUTABLE_FL = 0 then
      { rc := 0, origAttrs := ino.flags, world := w, errno := errno0, cleared := false }
    else if ¬ sfOk then
      { rc := -1, origAttrs := ino.flags, world := w, errno := failErrno, cleared := false }
    else
      { rc := 0, origAttrs := ino.flags,
        world := updIno w fd (fun i => { i with flags := i.flags &&& (SIZE_MAX - FS_IMMUTABLE_FL) }),
        errno := errno0, cleared := true }

/-- Oracle for one `efivarfs_set_variable` execution: the interference
another process applies to the world between the read-only and the
write-only `open`, the success of each fallible syscall, the errno a
failing syscall leaves, whether the kernel marks a freshly created file
immutable, the identity the kernel gives a freshly created file, and the
heap bytes behind the sync path's buffer. -/
structure SetEnv where
  interfere : World → World
  fstatROk : Bool
  fstatWOk : Bool
  rGetflagsOk : Bool
  rSetflagsOk : Bool
  wGetflagsOk : Bool
  wSetflagsOk : Bool
  writeOk : Bool
  failErrno : Nat
  createdImmutable : Bool
  newId : FileId
  espJunk : List Nat

/-- Result of `efivarfs_set_variable`.  `exited` records executions in
which the persistence-sync step called `exit(1)`, bypassing the cleanup. -/
structure SetResult where
  ret : Int
  errno : Nat
  world : World
  events : List Event
  exited : Bool
deriving Repr

/-- State after the read-only phase of `set` (fstat of the r/o descriptor
and the attempt to make it mutable). -/
structure RPhase where
  world : World
  restoreFd : Option FileId
  origAttrs : Nat
  errno : Nat
  events : List Event
  fstatFailed : Bool

/-- Read-only phase of `set` on an existing file: `fstat` the descriptor
(failure aborts), then `efivarfs_make_fd_mutable`; remember the descriptor
for restoration iff the call succeeded and the file was immutable. -/
def setRPhase (w : World) (env : SetEnv) (rid : FileId) (errno0 : Nat) : RPhase :=
  if ¬ env.fstatROk then
    { world := w, restoreFd := none, origAttrs := 0, errno := env.failErrno,
      events := [], fstatFailed := true }
  else
    let m := efivarfs_make_fd_mutable w rid env.rGetflagsOk env.rSetflagsOk
      env.failErrno errno0
    { world := m.world,
      restoreFd := if m.rc = 0 ∧ m.origAttrs &&& FS_IMMUTABLE_FL ≠ 0 then some rid else none,
      origAttrs := m.origAttrs, errno := m.errno,
      events := if m.cleared then [Event.clearImm rid m.origAttrs] else [],
      fstatFailed := false }

/-- The `err:` label of `efivarfs_set_variable`: save the errno, unlink the
file if the call failed after creating it, unconditionally issue the
flag-restoring ioctl on `restore_immutable_fd` (an invalid descriptor
makes it fail with `EBADF`), close both descriptors, free the buffers, and
restore the saved errno. -/
def setCleanup (path : String) (w : World) (ret : Int) (errno : Nat)
    (rfd wfd restoreFd : Option FileId) (origAttrs : Nat)
    (evs : List Event) : SetResult :=
  let doUnlink := ret = -1 ∧ rfd = none ∧ wfd ≠ none
  let w1 := if doUnlink then unlinkPath w path else w
  let w2 :=
    match restoreFd with
    | none => w1
    | some fd => updIno w1 fd (fun i => { i with flags := origAttrs })
  { ret := ret, errno := errno, world := w2,
    events := evs ++ ((if doUnlink then [Event.unlinkEv path] else []) ++
      [Event.restoreFlags restoreFd origAttrs]),
    exited := false }

/-- Write phase of `set`: one `write` of the whole attribute+data buffer
(only -1 is an error; the efivarfs kernel treats each write as a complete
variable record, so a successful write replaces the file content with the
buffer), then `efi_update_var_file`, then the cleanup with success
status.  A process exit inside the sync step bypasses the cleanup. -/
def setWriteAndFinish (env : SetEnv) (path : String) (w : World)
    (rfd : Option FileId) (wfd : FileId) (restoreFd : Option FileId)
    (origAttrs : Nat) (buf : List Nat) (errno : Nat) (evs : List Event) :
    SetResult :=
  if ¬ env.writeOk then
    setCleanup path w (-1) env.failErrno rfd (some wfd) restoreFd origAttrs evs
  else
    let w1 := updIno w wfd (fun i => { i with content := buf })
    let sync := efi_update_var_file w1 env.espJunk errno
    if sync.exited then
      { ret := -1, errno := sync.errno, world := sync.world,
        events := evs ++ (Event.writeEv wfd buf :: sync.events), exited := true }
    else
      setCleanup path sync.world 0 sync.errno rfd (some wfd) restoreFd
        origAttrs (evs ++ (Event.writeEv wfd buf :: sync.events))

/-- `efivarfs_set_variable`: validate the name length and the data size
before any filesystem access, build the path, open read-only (absence is
not fatal), capture the device+inode identity and clear the immutable
flag, open for writing (`O_APPEND` per the append attribute bit,
`O_CREAT|O_EXCL` iff the read-only open failed), make a freshly created
file mutable or else compare the two `fstat` identities, write the 4-byte
attribute word followed by the data in one call, run the persistence sync
and clean up. -/
def efivarfs_set_variable (w0 : World) (env : SetEnv) (guid name : String)
    (data : List Nat) (dataSize attributes mode errno0 : Nat) : SetResult :=
  if 1024 < name.length then
    { ret := -1, errno := EINVAL, world := w0, events := [], exited := false }
  else if SIZE_MAX - 4 < dataSize then
    { ret := -1, errno := EOVERFLOW, world := w0, events := [], exited := false }
  else
    let path := make_efivarfs_path guid name
    let buf := leEnc4 attributes ++ data
    match assoc w0.dir path with
    | some rid =>
      let rp := setRPhase w0 env rid errno0
      let evs0 := Event.openRO path :: rp.events
      if rp.fstatFailed then
        setCleanup path rp.world (-1) rp.errno (some rid) none none 0 evs0
      else
        let w2 := env.interfere rp.world
        let evs1 := evs0 ++ [Event.openW path false mode]
        match assoc w2.dir path with
        | none =>
          setCleanup path w2 (-1) ENOENT (some rid) none rp.restoreFd
            rp.origAttrs evs1
        | some wid =>
          if ¬ env.fstatWOk then
            setCleanup path w2 (-1) env.failErrno (some rid) (some wid)
              rp.restoreFd rp.origAttrs evs1
          else if rid ≠ wid then
            setCleanup path w2 (-1) EINVAL (some rid) (some wid)
              rp.restoreFd rp.origAttrs evs1
          else
            setWriteAndFinish env path w2 (some rid) wid rp.restoreFd
              rp.origAttrs buf rp.errno evs1
    | none =>
      let w2 := env.interfere w0
      let evs1 := [Event.openRO path, Event.openW path true mode]
      match assoc w2.dir path with
      | some _ =>
        setCleanup path w2 (-1) EEXIST none none none 0 evs1
      | none =>
        let wid := env.newId
        let w3 := createFile w2 path wid
          { content := [],
            flags := if env.createdImmutable then FS_IMMUTABLE_FL else 0,
            mode := mode }
        let m := efivarfs_make_fd_mutable w3 wid env.wGetflagsOk env.wSetflagsOk
          env.failErrno ENOENT
        let restoreFd :=
          if m.rc = 0 ∧ m.origAttrs &&& FS_IMMUTABLE_FL ≠ 0 then some wid else none
        let evs2 := evs1 ++ [Event.created path mode] ++
          (if m.cleared then [Event.clearImm wid m.origAttrs] else [])
        setWriteAndFinish env path m.world none wid restoreFd m.origAttrs buf
          m.errno evs2

/-- `efivarfs_append_variable`: force the append-write attribute bit and
delegate to `efivarfs_set_variable` with a hard-coded mode of 0. -/
def efivarfs_append_variable (w0 : World) (env : SetEnv) (guid name : String)
    (data : List Nat) (dataSize attributes errno0 : Nat) : SetResult :=
  efivarfs_set_variable w0 env guid name data dataSize
    (attributes ||| EFI_VARIABLE_APPEND_WRITE) 0 errno0

/-- Result of `efivarfs_chmod_variable`. -/
structure ChmodResult where
  ret : Int
  errno : Nat
  world : World
deriving Repr

/-- `efivarfs_chmod_variable`: build the path, issue `chmod`, save the
errno across the `free`, and fall through to `return -1` regardless of the
outcome of the `chmod` call. -/
def efivarfs_chmod_variable (w : World) (guid name : String)
    (mode errno0 : Nat) : ChmodResult :=
  let path := make_efivarfs_path guid name
  match assoc w.dir path with
  | none => { ret := -1, errno := ENOENT, world := w }
  | some fid =>
    { ret := -1, errno := errno0,
      world := updIno w fid (fun i => { i with mode := mode }) }

/-- Decides that an event trace contains no write to a variable file and no
write to an ESP file. -/
def noWriteEvents (evs : List Event) : Bool :=
  evs.all (fun e =>
    match e with
    | Event.writeEv _ _ => false
    | Event.espWrite _ _ => false
    | _ => true)

/-- An empty world, for concrete executions. -/
def wEmpty : World := { dir := [], inodes := [], esp := [] }

/-- A benign oracle: no interference, every fallible syscall succeeds, the
kernel does not mark created files immutable, fresh files get identity
(1, 1). -/
def envBenign : SetEnv :=
  { interfere := id, fstatROk := true, fstatWOk := true, rGetflagsOk := true,
    rSetflagsOk := true, wGetflagsOk := true, wSetflagsOk := true,
    writeOk := true, failErrno := 0, createdImmutable := false,
    newId := (1, 1), espJunk := [] }

/-- A 1025-character name, one over the validation bound. -/
def nameLong : String := String.mk (List.replicate 1025 'a')

/-- A world with one variable file whose content is only 2 bytes long. -/
def wShort : World :=
  { dir := [("/sys/firmware/efi/efivars/Var-g", (1, 1))],
    inodes := [((1, 1), { content := [1, 2], flags := 0, mode := 384 })],
    esp := [] }

/-- A world with one ordinary variable file. -/
def wOne : World :=
  { dir := [("/sys/firmware/efi/efivars/Var-g", (1, 1))],
    inodes := [((1, 1), { content := [7, 0, 0, 0, 1, 2, 3], flags := 0, mode := 384 })],
    esp := [] }

/-- A benign oracle whose write syscall fails with ENOSPC (28). -/
def envWriteFail : SetEnv :=
  { envBenign with writeOk := false, failErrno := 28 }

/-- A racing oracle: between the two opens, another process replaces the
file at `/sys/firmware/efi/efivars/Var-g` with a fresh one of identity
(2, 2). -/
def envRace : SetEnv :=
  { envBenign with
    interfere := fun w =>
      { dir := ("/sys/firmware/efi/efivars/Var-g", (2, 2)) :: w.dir,
        inodes := ((2, 2), { content := [9], flags := 0, mode := 384 }) :: w.inodes,
        esp := w.esp } }

/-- A world with one immutable variable file (flag word 16, i.e. only
`FS_IMMUTABLE_FL` set). -/
def wImm : World :=
  { dir := [("/sys/firmware/efi/efivars/Var-g", (1, 1))],
    inodes := [((1, 1), { content := [7, 0, 0, 0, 9], flags := 16, mode := 384 })],
    esp := [] }

/-- A world holding only the reserved `RTStorageVolatile` variable with a
2-byte payload. -/
def wRTSV : World :=
  { dir := [("/sys/firmware/efi/efivars/RTStorageVolatile-b2ac5fc9-92b7-4acd-aeac-11e818c3130c",
      (2, 2))],
    inodes := [((2, 2), { content := [7, 0, 0, 0, 65, 66], flags := 0, mode := 384 })],
    esp := [] }

/-- A world with the two reserved persistence variables (`NvVars` filename
payload, `VarToFile` data) and an existing empty ESP file, but no file for
the key being deleted. -/
def wDel : World :=
  { dir := [("/sys/firmware/efi/efivars/RTStorageVolatile-b2ac5fc9-92b7-4acd-aeac-11e818c3130c",
      (2, 2)),
      ("/sys/firmware/efi/efivars/VarToFile-b2ac5fc9-92b7-4acd-aeac-11e818c3130c",
      (3, 3))],
    inodes := [((2, 2),
      { content := [7, 0, 0, 0, 78, 118, 86, 97, 114, 115], flags := 0, mode := 384 }),
      ((3, 3), { content := [7, 0, 0, 0, 1, 2, 3], flags := 0, mode := 384 })],
    esp := [(sbytes "/boot/efi/NvVars", [])] }

/-! Helper lemmas about the world model. -/

theorem assoc_cons {α β : Type} [DecidableEq α] (a : α) (b : β)
    (l : List (α × β)) (k : α) :
    assoc ((a, b) :: l) k = if a = k then some b else assoc l k := rfl

theorem assoc_map_upd (l : List (FileId × Inode)) (id k : FileId)
    (f : Inode → Inode) :
    assoc (l.map fun p => if p.1 = id then (p.1, f p.2) else p) k =
      if k = id then (assoc l k).map f else assoc l k := by
  induction l with
  | nil => by_cases hk : k = id <;> simp [assoc, hk]
  | cons hd tl ih =>
    obtain ⟨a, b⟩ := hd
    simp only [List.map_cons]
    by_cases h1 : a = id
    · subst h1
      by_cases h2 : a = k
      · subst h2
        simp [assoc_cons, ih]
      · simp [assoc_cons, h2, Ne.symm h2, ih]
    · by_cases h2 : a = k
      · subst h2
        simp [assoc_cons, h1, Ne.symm h1]
      · simp [assoc_cons, h1, h2, ih]

theorem assoc_updIno (w : World) (id k : FileId) (f : Inode → Inode) :
    assoc (updIno w id f).inodes k =
      if k = id then (assoc w.inodes k).map f else assoc w.inodes k := by
  simp [updIno, assoc_map_upd]

theorem updIno_dir (w : World) (id : FileId) (f : Inode → Inode) :
    (updIno w id f).dir = w.dir := rfl

theorem assoc_updIno_mode (w : World) (id k : FileId) (f : Inode → Inode)
    (hf : ∀ i, (f i).mode = i.mode) :
    ((assoc (updIno w id f).inodes k).map (fun i => i.mode)) =
      (assoc w.inodes k).map (fun i => i.mode) := by
  rw [assoc_updIno]
  split
  · cases assoc w.inodes k <;> simp [hf]
  · rfl

theorem assoc_updIno_content (w : World) (id k : FileId) (f : Inode → Inode)
    (hf : ∀ i, (f i).content = i.content) :
    ((assoc (updIno w id f).inodes k).map (fun i => i.content)) =
      (assoc w.inodes k).map (fun i => i.content) := by
  rw [assoc_updIno]
  split
  · cases assoc w.inodes k <;> simp [hf]
  · rfl

theorem espSet_dir (w : World) (k v : List Nat) : (espSet w k v).dir = w.dir := rfl

theorem espSet_inodes (w : World) (k v : List Nat) :
    (espSet w k v).inodes = w.inodes := rfl

theorem write_file_vars (w : World) (fp : List Nat) (e : Nat) :
    (write_file w fp e).world.dir = w.dir ∧
      (write_file w fp e).world.inodes = w.inodes := by
  unfold write_file
  dsimp only
  split
  · exact ⟨rfl, rfl⟩
  · split
    · exact ⟨rfl, rfl⟩
    · split <;> exact ⟨rfl, rfl⟩

theorem efi_update_var_file_vars (w : World) (junk : List Nat) (e : Nat) :
    (efi_update_var_file w junk e).world.dir = w.dir ∧
      (efi_update_var_file w junk e).world.inodes = w.inodes := by
  unfold efi_update_var_file
  split
  · exact ⟨rfl, rfl⟩
  · split
    · exact ⟨rfl, rfl⟩
    · exact write_file_vars _ _ _

theorem unlinkPath_inodes (w : World) (p : String) :
    (unlinkPath w p).inodes = w.inodes := rfl

theorem setCleanup_events (path : String) (w : World) (ret : Int) (errno : Nat)
    (rfd wfd restoreFd : Option FileId) (origAttrs : Nat) (evs : List Event) :
    ∃ s, (setCleanup path w ret errno rfd wfd restoreFd origAttrs evs).events =
      evs ++ s :=
  ⟨_, rfl⟩

theorem setCleanup_events_pre (path : String) (w : World) (ret : Int)
    (errno : Nat) (rfd wfd restoreFd : Option FileId) (origAttrs : Nat)
    (pre mid : List Event) :
    ∃ s, (setCleanup path w ret errno rfd wfd restoreFd origAttrs
      (pre ++ mid)).events = pre ++ s := by
  obtain ⟨s, hs⟩ :=
    setCleanup_events path w ret errno rfd wfd restoreFd origAttrs (pre ++ mid)
  exact ⟨mid ++ s, by rw [hs, List.append_assoc]⟩

theorem setWriteAndFinish_events (env : SetEnv) (path : String) (w : World)
    (rfd : Option FileId) (wfd : FileId) (restoreFd : Option FileId)
    (origAttrs : Nat) (buf : List Nat) (errno : Nat) (evs : List Event) :
    ∃ s, (setWriteAndFinish env path w rfd wfd restoreFd origAttrs buf errno
      evs).events = evs ++ s := by
  unfold setWriteAndFinish
  dsimp only
  split
  · exact setCleanup_events _ _ _ _ _ _ _ _ _
  · split
    · exact ⟨_, rfl⟩
    · exact setCleanup_events_pre _ _ _ _ _ _ _ _ _ _

theorem setCleanup_inodes_mode (path : String) (w : World) (ret : Int)
    (errno : Nat) (rfd wfd restoreFd : Option FileId) (origAttrs : Nat)
    (evs : List Event) (k : FileId) :
    ((assoc (setCleanup path w ret errno rfd wfd restoreFd origAttrs
        evs).world.inodes k).map (fun i => i.mode)) =
      (assoc w.inodes k).map (fun i => i.mode) := by
  unfold setCleanup
  dsimp only
  have h1 : (if ret = -1 ∧ rfd = none ∧ wfd ≠ none then unlinkPath w path
      else w).inodes = w.inodes := by split <;> rfl
  cases restoreFd with
  | none =>
    dsimp only
    simp only [h1]
  | some fd =>
    dsimp only
    rw [assoc_updIno_mode _ fd k (fun i => { i with flags := origAttrs })
      (fun i => rfl)]
    simp only [h1]

theorem setWriteAndFinish_inodes_mode (env : SetEnv) (path : String)
    (w : World) (rfd : Option FileId) (wfd : FileId)
    (restoreFd : Option FileId) (origAttrs : Nat) (buf : List Nat)
    (errno : Nat) (evs : List Event) (k : FileId) :
    ((assoc (setWriteAndFinish env path w rfd wfd restoreFd origAttrs buf
        errno evs).world.inodes k).map (fun i => i.mode)) =
      (assoc w.inodes k).map (fun i => i.mode) := by
  unfold setWriteAndFinish
  dsimp only
  split
  · exact setCleanup_inodes_mode _ _ _ _ _ _ _ _ _ _
  · have hsync :=
      (efi_update_var_file_vars (updIno w wfd (fun i => { i with content := buf }))
        env.espJunk errno).2
    split
    · show ((assoc (efi_update_var_file _ env.espJunk errno).world.inodes k).map
        (fun i => i.mode)) = _
      rw [hsync]
      exact assoc_updIno_mode _ _ _ _ (fun i => rfl)
    · rw [setCleanup_inodes_mode]
      rw [hsync]
      exact assoc_updIno_mode _ _ _ _ (fun i => rfl)

theorem make_fd_mutable_inodes_mode (w : World) (fd : FileId) (gfOk sfOk : Bool)
    (failErrno errno0 : Nat) (k : FileId) :
    ((assoc (efivarfs_make_fd_mutable w fd gfOk sfOk failErrno
        errno0).world.inodes k).map (fun i => i.mode)) =
      (assoc w.inodes k).map (fun i => i.mode) := by
  unfold efivarfs_make_fd_mutable
  split
  · rfl
  · split
    · rfl
    · split
      · rfl
      · split
        · rfl
        · exact assoc_updIno_mode _ fd k _ (fun i => rfl)

theorem setCleanup_ret (path : String) (w : World) (ret : Int) (errno : Nat)
    (rfd wfd restoreFd : Option FileId) (origAttrs : Nat) (evs : List Event) :
    (setCleanup path w ret errno rfd wfd restoreFd origAttrs evs).ret = ret :=
  rfl

theorem setCleanup_errno (path : String) (w : World) (ret : Int) (errno : Nat)
    (rfd wfd restoreFd : Option FileId) (origAttrs : Nat) (evs : List Event) :
    (setCleanup path w ret errno rfd wfd restoreFd origAttrs
      evs).errno = errno := rfl

theorem setCleanup_noWrite (path : String) (w : World) (ret : Int)
    (errno : Nat) (rfd wfd restoreFd : Option FileId) (origAttrs : Nat)
    (evs : List Event) (h : noWriteEvents evs = true) :
    noWriteEvents (setCleanup path w ret errno rfd wfd restoreFd origAttrs
      evs).events = true := by
  unfold setCleanup
  dsimp only
  unfold noWriteEvents at h ⊢
  rw [List.all_append, h]
  rw [List.all_append]
  split <;> rfl

theorem setCleanup_assoc_inodes (path : String) (w : World) (ret : Int)
    (errno : Nat) (rfd wfd restoreFd : Option FileId) (origAttrs : Nat)
    (evs : List Event) (k : FileId)
    (hk : ∀ fd, restoreFd = some fd → fd ≠ k) :
    assoc (setCleanup path w ret errno rfd wfd restoreFd origAttrs
      evs).world.inodes k = assoc w.inodes k := by
  unfold setCleanup
  dsimp only
  have h1 : (if ret = -1 ∧ rfd = none ∧ wfd ≠ none then unlinkPath w path
      else w).inodes = w.inodes := by split <;> rfl
  cases restoreFd with
  | none =>
    dsimp only
    rw [h1]
  | some fd =>
    dsimp only
    rw [assoc_updIno]
    rw [if_neg (Ne.symm (hk fd rfl))]
    rw [h1]

theorem setRPhase_fstatFailed (w : World) (env : SetEnv) (rid : FileId)
    (e : Nat) (h : env.fstatROk = true) :
    (setRPhase w env rid e).fstatFailed = false := by
  unfold setRPhase
  rw [h]
  simp

theorem setRPhase_noWrite (w : World) (env : SetEnv) (rid : FileId)
    (e : Nat) : noWriteEvents (setRPhase w env rid e).events = true := by
  unfold setRPhase
  split
  · rfl
  · dsimp only
    split <;> rfl

theorem setRPhase_restoreFd_eq (w : World) (env : SetEnv) (rid : FileId)
    (e : Nat) (fd : FileId)
    (h : (setRPhase w env rid e).restoreFd = some fd) : fd = rid := by
  unfold setRPhase at h
  split at h
  · simp at h
  · dsimp only at h
    split at h
    · exact (Option.some.injEq _ _ ▸ h).symm
    · simp at h

theorem make_fd_mutable_cleared (w : World) (fd : FileId) (gfOk sfOk : Bool)
    (failErrno errno0 : Nat)
    (h : (efivarfs_make_fd_mutable w fd gfOk sfOk failErrno
      errno0).cleared = true) :
    (efivarfs_make_fd_mutable w fd gfOk sfOk failErrno errno0).rc = 0 ∧
    (efivarfs_make_fd_mutable w fd gfOk sfOk failErrno errno0).origAttrs &&&
      FS_IMMUTABLE_FL ≠ 0 := by
  unfold efivarfs_make_fd_mutable at h ⊢
  split at h
  · simp at h
  · split at h
    · simp at h
    · split at h
      · simp at h
      · split at h
        · simp at h
        · rename_i ino _ hflag _
          refine ⟨by simp_all, ?_⟩
          simp_all

theorem setRPhase_failed_events (w : World) (env : SetEnv) (rid : FileId)
    (e : Nat) (h : (setRPhase w env rid e).fstatFailed = true) :
    (setRPhase w env rid e).events = [] := by
  unfold setRPhase at h ⊢
  by_cases hc : env.fstatROk = true
  · rw [if_neg (by simp [hc])] at h
    dsimp only at h
    simp at h
  · rw [if_pos hc]

theorem setRPhase_clear_inv (w : World) (env : SetEnv) (rid : FileId)
    (e : Nat) (fd : FileId) (orig : Nat)
    (h : Event.clearImm fd orig ∈ (setRPhase w env rid e).events) :
    (setRPhase w env rid e).restoreFd = some fd ∧
    (setRPhase w env rid e).origAttrs = orig := by
  unfold setRPhase at h ⊢
  by_cases hc : env.fstatROk = true
  · rw [if_neg (by simp [hc])] at h ⊢
    dsimp only at h ⊢
    by_cases hcl : (efivarfs_make_fd_mutable w rid env.rGetflagsOk
        env.rSetflagsOk env.failErrno e).cleared = true
    · rw [if_pos hcl] at h
      simp only [List.mem_singleton] at h
      injection h with h1 h2
      obtain ⟨hrc, himm⟩ := make_fd_mutable_cleared w rid env.rGetflagsOk
        env.rSetflagsOk env.failErrno e hcl
      rw [if_pos ⟨hrc, himm⟩, h1]
      exact ⟨rfl, h2.symm⟩
    · rw [if_neg hcl] at h
      simp at h
  · rw [if_pos hc] at h
    simp at h

theorem setCleanup_mem_clear (path : String) (w : World) (ret : Int)
    (errno : Nat) (rfd wfd restoreFd : Option FileId) (origAttrs : Nat)
    (evs : List Event) (fd : FileId) (orig : Nat)
    (h : Event.clearImm fd orig ∈
      (setCleanup path w ret errno rfd wfd restoreFd origAttrs evs).events) :
    Event.clearImm fd orig ∈ evs := by
  unfold setCleanup at h
  dsimp only at h
  rw [List.mem_append] at h
  rcases h with h | h
  · exact h
  · rw [List.mem_append] at h
    rcases h with h | h
    · split at h <;> simp at h
    · simp at h

theorem setCleanup_has_restore (path : String) (w : World) (ret : Int)
    (errno : Nat) (rfd wfd restoreFd : Option FileId) (origAttrs : Nat)
    (evs : List Event) :
    Event.restoreFlags restoreFd origAttrs ∈
      (setCleanup path w ret errno rfd wfd restoreFd origAttrs evs).events := by
  unfold setCleanup
  dsimp only
  simp

theorem write_file_events_esp (w : World) (fp : List Nat) (e : Nat) :
    ∀ ev ∈ (write_file w fp e).events, ∃ f b, ev = Event.espWrite f b := by
  unfold write_file
  dsimp only
  split
  · simp
  · split
    · simp
    · split
      · intro ev hev
        simp only [List.mem_singleton] at hev
        exact ⟨_, _, hev⟩
      · intro ev hev
        simp only [List.mem_singleton] at hev
        exact ⟨_, _, hev⟩

theorem update_events_esp (w : World) (junk : List Nat) (e : Nat) :
    ∀ ev ∈ (efi_update_var_file w junk e).events, ∃ f b,
      ev = Event.espWrite f b := by
  unfold efi_update_var_file
  split
  · simp
  · split
    · simp
    · exact write_file_events_esp _ _ _

theorem update_no_clear (w : World) (junk : List Nat) (e : Nat) (fd : FileId)
    (orig : Nat) :
    Event.clearImm fd orig ∉ (efi_update_var_file w junk e).events := by
  intro h
  obtain ⟨f, b, hfb⟩ := update_events_esp w junk e _ h
  simp at hfb

theorem setWriteAndFinish_mem_clear (env : SetEnv) (path : String)
    (w : World) (rfd : Option FileId) (wfd : FileId)
    (restoreFd : Option FileId) (origAttrs : Nat) (buf : List Nat)
    (errno : Nat) (evs : List Event) (fd : FileId) (orig : Nat)
    (h : Event.clearImm fd orig ∈
      (setWriteAndFinish env path w rfd wfd restoreFd origAttrs buf errno
        evs).events) :
    Event.clearImm fd orig ∈ evs := by
  unfold setWriteAndFinish at h
  dsimp only at h
  split at h
  · exact setCleanup_mem_clear _ _ _ _ _ _ _ _ _ _ _ h
  · split at h
    · dsimp only at h
      rw [List.mem_append] at h
      rcases h with h | h
      · exact h
      · rcases List.mem_cons.mp h with h | h
        · simp at h
        · exact absurd h (update_no_clear _ _ _ _ _)
    · have h2 := setCleanup_mem_clear _ _ _ _ _ _ _ _ _ _ _ h
      rw [List.mem_append] at h2
      rcases h2 with h2 | h2
      · exact h2
      · rcases List.mem_cons.mp h2 with h2 | h2
        · simp at h2
        · exact absurd h2 (update_no_clear _ _ _ _ _)

theorem setWriteAndFinish_restore_or (env : SetEnv) (path : String)
    (w : World) (rfd : Option FileId) (wfd : FileId)
    (restoreFd : Option FileId) (origAttrs : Nat) (buf : List Nat)
    (errno : Nat) (evs : List Event) :
    (setWriteAndFinish env path w rfd wfd restoreFd origAttrs buf errno
      evs).exited = true ∨
    Event.restoreFlags restoreFd origAttrs ∈
      (setWriteAndFinish env path w rfd wfd restoreFd origAttrs buf errno
        evs).events := by
  unfold setWriteAndFinish
  dsimp only
  split
  · exact Or.inr (setCleanup_has_restore _ _ _ _ _ _ _ _ _)
  · split
    · exact Or.inl rfl
    · exact Or.inr (setCleanup_has_restore _ _ _ _ _ _ _ _ _)

theorem setWriteAndFinish_restore (env : SetEnv) (path : String) (w : World)
    (rfd : Option FileId) (wfd : FileId) (restoreFd : Option FileId)
    (origAttrs : Nat) (buf : List Nat) (errno : Nat) (evs : List Event)
    (hexit : (setWriteAndFinish env path w rfd wfd restoreFd origAttrs buf
      errno evs).exited = false) :
    Event.restoreFlags restoreFd origAttrs ∈
      (setWriteAndFinish env path w rfd wfd restoreFd origAttrs buf errno
        evs).events := by
  rcases setWriteAndFinish_restore_or env path w rfd wfd restoreFd origAttrs
    buf errno evs with hex | hres
  · rw [hex] at hexit
    exact absurd hexit (by decide)
  · exact hres

theorem clear_mem_evs1 (path : String) (mode : Nat) (rpEvents : List Event)
    (fd : FileId) (orig : Nat)
    (h : Event.clearImm fd orig ∈
      (Event.openRO path :: rpEvents) ++ [Event.openW path false mode]) :
    Event.clearImm fd orig ∈ rpEvents := by
  rcases List.mem_append.mp h with h | h
  · rcases List.mem_cons.mp h with h | h
    · exact absurd h (by simp)
    · exact h
  · simp at h

theorem create_clear_inv (wc : World) (wid : FileId) (gfOk sfOk : Bool)
    (fe e0 : Nat) (fd : FileId) (orig : Nat) (p : String) (mode : Nat)
    (h : Event.clearImm fd orig ∈
      [Event.openRO p, Event.openW p true mode] ++ [Event.created p mode] ++
        (if (efivarfs_make_fd_mutable wc wid gfOk sfOk fe e0).cleared = true
          then [Event.clearImm wid
            (efivarfs_make_fd_mutable wc wid gfOk sfOk fe e0).origAttrs]
          else [])) :
    (if (efivarfs_make_fd_mutable wc wid gfOk sfOk fe e0).rc = 0 ∧
        (efivarfs_make_fd_mutable wc wid gfOk sfOk fe e0).origAttrs &&&
          FS_IMMUTABLE_FL ≠ 0 then
      some wid else none) = some fd ∧
    (efivarfs_make_fd_mutable wc wid gfOk sfOk fe e0).origAttrs = orig := by
  rcases List.mem_append.mp h with h | h
  · simp at h
  · by_cases hcl : (efivarfs_make_fd_mutable wc wid gfOk sfOk fe
      e0).cleared = true
    · rw [if_pos hcl] at h
      simp only [List.mem_singleton] at h
      injection h with hf ho
      obtain ⟨hrc, himm⟩ := make_fd_mutable_cleared wc wid gfOk sfOk fe e0 hcl
      rw [if_pos ⟨hrc, himm⟩, hf]
      exact ⟨rfl, ho.symm⟩
    · rw [if_neg hcl] at h
      simp at h

theorem setCleanup_unlink_mem (path : String) (w : World) (ret : Int)
    (errno : Nat) (rfd wfd restoreFd : Option FileId) (origAttrs : Nat)
    (evs : List Event) (h : ret = -1 ∧ rfd = none ∧ wfd ≠ none) :
    Event.unlinkEv path ∈
      (setCleanup path w ret errno rfd wfd restoreFd origAttrs evs).events := by
  unfold setCleanup
  dsimp only
  rw [if_pos h]
  simp

theorem leDec_leEnc4 (a : Nat) (ha : a < 2 ^ 32) :
    leDec (leEnc4 a) = a := by
  simp only [leEnc4, leDec]
  omega

theorem leEnc4_length (a : Nat) : (leEnc4 a).length = 4 := by
  simp [leEnc4]

theorem setCleanup_dir_ret0 (path : String) (w : World) (errno : Nat)
    (rfd wfd restoreFd : Option FileId) (origAttrs : Nat)
    (evs : List Event) :
    (setCleanup path w 0 errno rfd wfd restoreFd origAttrs
      evs).world.dir = w.dir := by
  unfold setCleanup
  dsimp only
  rw [if_neg (by intro h; exact absurd h.1 (by decide))]
  cases restoreFd <;> rfl

theorem setCleanup_inodes_content (path : String) (w : World) (ret : Int)
    (errno : Nat) (rfd wfd restoreFd : Option FileId) (origAttrs : Nat)
    (evs : List Event) (k : FileId) :
    ((assoc (setCleanup path w ret errno rfd wfd restoreFd origAttrs
        evs).world.inodes k).map (fun i => i.content)) =
      (assoc w.inodes k).map (fun i => i.content) := by
  unfold setCleanup
  dsimp only
  have h1 : (if ret = -1 ∧ rfd = none ∧ wfd ≠ none then unlinkPath w path
      else w).inodes = w.inodes := by split <;> rfl
  cases restoreFd with
  | none =>
    dsimp only
    simp only [h1]
  | some fd =>
    dsimp only
    rw [assoc_updIno_content _ fd k (fun i => { i with flags := origAttrs })
      (fun i => rfl)]
    simp only [h1]

theorem make_fd_mutable_dir (w : World) (fd : FileId) (gfOk sfOk : Bool)
    (failErrno errno0 : Nat) :
    (efivarfs_make_fd_mutable w fd gfOk sfOk failErrno
      errno0).world.dir = w.dir := by
  unfold efivarfs_make_fd_mutable
  split
  · rfl
  · split
    · rfl
    · split
      · rfl
      · split <;> rfl

theorem make_fd_mutable_isSome (w : World) (fd : FileId) (gfOk sfOk : Bool)
    (failErrno errno0 : Nat) (k : FileId) :
    (assoc (efivarfs_make_fd_mutable w fd gfOk sfOk failErrno
      errno0).world.inodes k).isSome = (assoc w.inodes k).isSome := by
  unfold efivarfs_make_fd_mutable
  split
  · rfl
  · split
    · rfl
    · split
      · rfl
      · split
        · rfl
        · dsimp only
          rw [assoc_updIno]
          split
          · cases assoc w.inodes k <;> rfl
          · rfl

theorem setRPhase_dir (w : World) (env : SetEnv) (rid : FileId) (e : Nat) :
    (setRPhase w env rid e).world.dir = w.dir := by
  unfold setRPhase
  split
  · rfl
  · exact make_fd_mutable_dir _ _ _ _ _ _

theorem setRPhase_isSome (w : World) (env : SetEnv) (rid : FileId) (e : Nat)
    (k : FileId) :
    (assoc (setRPhase w env rid e).world.inodes k).isSome =
      (assoc w.inodes k).isSome := by
  unfold setRPhase
  split
  · rfl
  · exact make_fd_mutable_isSome _ _ _ _ _ _ _

theorem setWriteAndFinish_success (env : SetEnv) (path : String) (w : World)
    (rfd : Option FileId) (wfd : FileId) (restoreFd : Option FileId)
    (origAttrs : Nat) (buf : List Nat) (errno : Nat) (evs : List Event)
    (hw : assoc w.dir path = some wfd)
    (hino : (assoc w.inodes wfd).isSome)
    (hret : (setWriteAndFinish env path w rfd wfd restoreFd origAttrs buf
      errno evs).ret = 0) :
    assoc (setWriteAndFinish env path w rfd wfd restoreFd origAttrs buf
      errno evs).world.dir path = some wfd ∧
    ((assoc (setWriteAndFinish env path w rfd wfd restoreFd origAttrs buf
      errno evs).world.inodes wfd).map (fun i => i.content)) = some buf := by
  unfold setWriteAndFinish at hret ⊢
  dsimp only at hret ⊢
  by_cases hwo : env.writeOk = true
  · rw [if_neg (by simp [hwo])] at hret ⊢
    by_cases hex : (efi_update_var_file
        (updIno w wfd fun i => { i with content := buf }) env.espJunk
        errno).exited = true
    · rw [if_pos hex] at hret
      dsimp only at hret
      exact absurd hret (by decide)
    · rw [if_neg hex] at hret ⊢
      constructor
      · rw [setCleanup_dir_ret0, (efi_update_var_file_vars _ _ _).1,
          updIno_dir]
        exact hw
      · rw [setCleanup_inodes_content, (efi_update_var_file_vars _ _ _).2,
          assoc_updIno, if_pos rfl]
        obtain ⟨ino, hi⟩ := Option.isSome_iff_exists.mp hino
        rw [hi]
        rfl
  · rw [if_pos (by simp [hwo])] at hret
    rw [setCleanup_ret] at hret
    exact absurd hret (by decide)

/-- Reading back a variable file whose content is the attribute word
followed by the data yields exactly that attribute word and data. -/
theorem get_after_write (wr : World) (euid : Nat) (guid name : String)
    (e1 : Nat) (wid : FileId) (ino : Inode) (attributes : Nat)
    (data : List Nat)
    (hd : assoc wr.dir (make_efivarfs_path guid name) = some wid)
    (hi : assoc wr.inodes wid = some ino)
    (hc : ino.content = leEnc4 attributes ++ data)
    (ha : attributes < 2 ^ 32) :
    (efivarfs_get_variable wr euid none none guid name e1).ret = 0 ∧
    (efivarfs_get_variable wr euid none none guid name e1).attributes =
      attributes ∧
    (efivarfs_get_variable wr euid none none guid name e1).dataSize =
      data.length ∧
    (efivarfs_get_variable wr euid none none guid name e1).data.take
      (efivarfs_get_variable wr euid none none guid name e1).dataSize =
      data := by
  have hlen : ino.content.length = 4 + data.length := by
    rw [hc]
    simp only [List.length_append, leEnc4_length]
  have hmin : min 4 ino.content.length = 4 := by omega
  have htake : ino.content.take 4 = leEnc4 attributes := by
    rw [hc]
    exact List.take_left' (leEnc4_length attributes)
  have hdrop : ino.content.drop 4 = data := by
    rw [hc]
    exact List.drop_left' (leEnc4_length attributes)
  have hg : efivarfs_get_variable wr euid none none guid name e1 =
      { ret := 0, errno := e1, attributes := leDec (leEnc4 attributes),
        data := data ++ [0], dataSize := data.length,
        ratelimit := if euid = 0 then 0 else 10000 } := by
    simp only [efivarfs_get_variable, hd, hi, read_file, hmin, htake, hdrop]
    try dsimp only
    rw [Nat.add_sub_cancel]
  rw [hg]
  exact ⟨rfl, leDec_leEnc4 attributes ha, rfl, List.take_left' rfl⟩

theorem assoc_mem {α β : Type} [DecidableEq α] {l : List (α × β)} {k : α}
    {v : β} (h : assoc l k = some v) : (k, v) ∈ l := by
  induction l with
  | nil => simp [assoc] at h
  | cons hd tl ih =>
    obtain ⟨a, b⟩ := hd
    rw [assoc_cons] at h
    by_cases hak : a = k
    · rw [if_pos hak] at h
      injection h with hv
      subst hak
      subst hv
      exact List.mem_cons_self _ _
    · rw [if_neg hak] at h
      exact List.mem_cons_of_mem _ (ih h)

/-! Claim theorems. -/

/-- C7: the chmod operation always reports failure (-1) to the caller, for
every key and mode, even when the underlying mode-change syscall succeeds;
when the file exists, the mode change is in fact applied to it. -/
theorem C7_chmod_always_reports_failure (w : World) (guid name : String)
    (mode errno0 : Nat) :
    (efivarfs_chmod_variable w guid name mode errno0).ret = -1 ∧
    (∀ fid, assoc w.dir (make_efivarfs_path guid name) = some fid →
      (efivarfs_chmod_variable w guid name mode errno0).world =
        updIno w fid (fun i => { i with mode := mode })) := by
  constructor
  · unfold efivarfs_chmod_variable
    dsimp only
    split <;> rfl
  · intro fid h
    unfold efivarfs_chmod_variable
    dsimp only
    rw [h]

/-- C7 witness: on a world with one file, chmod succeeds (the mode is
applied) and still returns -1. -/
theorem C7_witness :
    (efivarfs_chmod_variable wOne "g" "Var" 448 0).ret = -1 ∧
    (efivarfs_chmod_variable wOne "g" "Var" 448 0).world =
      updIno wOne (1, 1) (fun i => { i with mode := 448 }) :=
  ⟨(C7_chmod_always_reports_failure wOne "g" "Var" 448 0).1,
   (C7_chmod_always_reports_failure wOne "g" "Var" 448 0).2 (1, 1) (by decide)⟩

/-- C8: set validates its inputs before touching the filesystem: a name
longer than 1024 bytes fails with EINVAL and a data size above
`SIZE_MAX - 4` fails with EOVERFLOW, in both cases with no event (no open,
create or write) and the world unchanged. -/
theorem C8_set_validates_first (w : World) (env : SetEnv) (guid name : String)
    (data : List Nat) (dataSize attributes mode errno0 : Nat) :
    (1024 < name.length →
      efivarfs_set_variable w env guid name data dataSize attributes mode
        errno0 =
        { ret := -1, errno := EINVAL, world := w, events := [],
          exited := false }) ∧
    (name.length ≤ 1024 → SIZE_MAX - 4 < dataSize →
      efivarfs_set_variable w env guid name data dataSize attributes mode
        errno0 =
        { ret := -1, errno := EOVERFLOW, world := w, events := [],
          exited := false }) := by
  constructor
  · intro h
    unfold efivarfs_set_variable
    rw [if_pos h]
  · intro h1 h2
    unfold efivarfs_set_variable
    rw [if_neg (by omega), if_pos h2]

/-- C8 witness: a 1025-byte name is rejected with EINVAL and an oversized
data size with EOVERFLOW, both without any filesystem event. -/
theorem C8_witness :
    (efivarfs_set_variable wEmpty envBenign "g" nameLong [] 0 7 448 0 =
      { ret := -1, errno := EINVAL, world := wEmpty, events := [],
        exited := false }) ∧
    (efivarfs_set_variable wEmpty envBenign "g" "Var" [] (2 ^ 64) 7 448 0 =
      { ret := -1, errno := EOVERFLOW, world := wEmpty, events := [],
        exited := false }) :=
  ⟨(C8_set_validates_first wEmpty envBenign "g" nameLong [] 0 7 448 0).1
     (by decide),
   (C8_set_validates_first wEmpty envBenign "g" "Var" [] (2 ^ 64) 7 448 0).2
     (by decide) (by decide)⟩

/-- C5 counterexample: on a backing file holding only two bytes the
attribute-word read returns 2 (fewer than 4 bytes) and yet
`efivarfs_get_variable` succeeds (returns 0), contradicting the claim that
every short read of the attribute word is an error. -/
theorem C5_counterexample :
    (efivarfs_get_variable wShort 0 none none "g" "Var" 0).ret = 0 := by
  decide

/-- C5 (amended): get requests exactly 4 bytes for the attribute word but
treats only a negative `read` return as an error; a short read of 0-3
bytes (a backing file shorter than 4 bytes) is accepted, and the call
succeeds with the partially-filled attribute word and an empty payload. -/
theorem C5_short_attr_read_accepted (w : World) (euid : Nat)
    (guid name : String) (errno0 : Nat) (fid : FileId) (ino : Inode)
    (hd : assoc w.dir (make_efivarfs_path guid name) = some fid)
    (hi : assoc w.inodes fid = some ino)
    (hlen : ino.content.length < 4) :
    (efivarfs_get_variable w euid none none guid name errno0).ret = 0 ∧
    (efivarfs_get_variable w euid none none guid name errno0).attributes =
      leDec ino.content ∧
    (efivarfs_get_variable w euid none none guid name errno0).dataSize = 0 := by
  have hmin : min 4 ino.content.length = ino.content.length := by omega
  simp [efivarfs_get_variable, hd, hi, read_file, hmin]

/-- C5 witness: the amended behavior on a concrete 2-byte file. -/
theorem C5_witness :
    (efivarfs_get_variable wShort 0 none none "g" "Var" 0).ret = 0 ∧
    (efivarfs_get_variable wShort 0 none none "g" "Var" 0).attributes =
      leDec [1, 2] ∧
    (efivarfs_get_variable wShort 0 none none "g" "Var" 0).dataSize = 0 :=
  C5_short_attr_read_accepted wShort 0 "g" "Var" 0 (1, 1)
    { content := [1, 2], flags := 0, mode := 384 } (by decide) (by decide)
    (by decide)

/-- C9: append always delegates to set with the append-write bit forced on
and a hard-coded mode of 0; therefore, when no backing file exists (and
none appears before the write-open), append creates the variable file with
no permission bits set. -/
theorem C9_append_mode_zero (w : World) (env : SetEnv) (guid name : String)
    (data : List Nat) (dataSize attributes errno0 : Nat) :
    efivarfs_append_variable w env guid name data dataSize attributes errno0 =
      efivarfs_set_variable w env guid name data dataSize
        (attributes ||| EFI_VARIABLE_APPEND_WRITE) 0 errno0 ∧
    (name.length ≤ 1024 → dataSize ≤ SIZE_MAX - 4 →
      assoc w.dir (make_efivarfs_path guid name) = none →
      assoc (env.interfere w).dir (make_efivarfs_path guid name) = none →
      Event.created (make_efivarfs_path guid name) 0 ∈
        (efivarfs_append_variable w env guid name data dataSize attributes
          errno0).events ∧
      ((assoc (efivarfs_append_variable w env guid name data dataSize
          attributes errno0).world.inodes env.newId).map (fun i => i.mode)) =
        some 0) := by
  refine ⟨rfl, ?_⟩
  intro h1 h2 hd hi
  unfold efivarfs_append_variable efivarfs_set_variable
  rw [if_neg (by omega), if_neg (by omega)]
  dsimp only
  rw [hd]
  dsimp only
  rw [hi]
  dsimp only
  constructor
  · obtain ⟨s, hs⟩ := setWriteAndFinish_events env (make_efivarfs_path guid name)
      _ none env.newId _ _ (leEnc4 (attributes ||| EFI_VARIABLE_APPEND_WRITE) ++ data) _ _
    rw [hs]
    simp
  · rw [setWriteAndFinish_inodes_mode, make_fd_mutable_inodes_mode]
    simp [createFile, assoc_cons]

/-- C9 witness: appending to a key with no backing file creates the file
with mode 0. -/
theorem C9_witness :
    Event.created "/sys/firmware/efi/efivars/Var-g" 0 ∈
      (efivarfs_append_variable wEmpty envBenign "g" "Var" [1] 1 7 0).events ∧
    ((assoc (efivarfs_append_variable wEmpty envBenign "g" "Var" [1] 1 7
        0).world.inodes (1, 1)).map (fun i => i.mode)) = some 0 :=
  (C9_append_mode_zero wEmpty envBenign "g" "Var" [1] 1 7 0).2 (by decide)
    (by decide) (by decide) (by decide)

/-- C10: `get_esp_filename` copies exactly the destination capacity `sz`
out of the variable payload's buffer rather than the payload's actual
size: the copied bytes are the payload followed by `sz - |payload|` bytes
lying past the payload's end (the `read_file` NUL pad, then raw heap
bytes), and the copied buffer equals the payload alone exactly when the
payload is `sz` bytes long. -/
theorem C10_esp_filename_copies_capacity (w : World) (junk : List Nat)
    (sz errno0 : Nat) (fid : FileId) (ino : Inode)
    (hd : assoc w.dir (make_efivarfs_path GUID_FILE_STORE_VARS NAME_RTSV) =
      some fid)
    (hi : assoc w.inodes fid = some ino)
    (hlen : 4 ≤ ino.content.length)
    (hsz : ino.content.length - 4 ≤ sz) :
    (get_esp_filename w junk sz errno0).1 =
      some (ino.content.drop 4 ++
        (0 :: junk).take (sz - (ino.content.length - 4))) ∧
    ((get_esp_filename w junk sz errno0).1 = some (ino.content.drop 4) ↔
      sz = ino.content.length - 4) := by
  have hmin : min 4 ino.content.length = 4 := by omega
  have hplen : (ino.content.drop 4).length = ino.content.length - 4 := by
    simp
  have hg : efivarfs_get_variable w 0 none none GUID_FILE_STORE_VARS NAME_RTSV
      errno0 =
      { ret := 0, errno := errno0, attributes := leDec (ino.content.take 4),
        data := ino.content.drop 4 ++ [0],
        dataSize := ino.content.length - 4, ratelimit := 0 } := by
    simp [efivarfs_get_variable, hd, hi, read_file, hmin, hplen]
  have hmain : (get_esp_filename w junk sz errno0).1 =
      some (ino.content.drop 4 ++
        (0 :: junk).take (sz - (ino.content.length - 4))) := by
    unfold get_esp_filename
    rw [hg]
    unfold get_esp_filename_core
    dsimp only
    rw [if_neg (by decide), if_neg (by omega)]
    have hcons : (ino.content.drop 4 ++ [0]) ++ junk =
        ino.content.drop 4 ++ (0 :: junk) := by simp
    rw [hcons, List.take_append_eq_append_take,
      List.take_of_length_le (by omega), hplen]
  refine ⟨hmain, ?_⟩
  constructor
  · intro h
    rw [hmain] at h
    have h2 : ino.content.drop 4 ++
        (0 :: junk).take (sz - (ino.content.length - 4)) =
        ino.content.drop 4 ++ [] := by
      simpa using h
    have h3 := List.append_cancel_left h2
    rcases List.take_eq_nil_iff.mp h3 with h4 | h4
    · omega
    · exact absurd h4 (by simp)
  · intro h
    rw [hmain, h]
    simp

/-- C10 witness: a 2-byte payload copied into a 4-byte destination picks up
the NUL pad and one heap byte. -/
theorem C10_witness :
    (get_esp_filename wRTSV [9, 9] 4 0).1 = some [65, 66, 0, 9] ∧
    ((get_esp_filename wRTSV [9, 9] 4 0).1 = some [65, 66] ↔ 4 = 2) := by
  have h := C10_esp_filename_copies_capacity wRTSV [9, 9] 4 0 (2, 2)
    { content := [7, 0, 0, 0, 65, 66], flags := 0, mode := 384 }
    (by decide) (by decide) (by decide) (by decide)
  exact ⟨by rw [h.1]; decide, by rw [show ((4 : Nat) = 2) =
    ((4 : Nat) = 6 - 4) from by norm_num]; exact h.2⟩

/-- C6 counterexample: deleting a key with no backing file returns the
NotFound failure, but the persistence-sync file on the boot partition is
rewritten nonetheless (the reserved filename variable resolves and the
`VarToFile` payload is mirrored), contradicting the claim that no
persistence-sync file modification occurs. -/
theorem C6_counterexample :
    (efivarfs_del_variable wDel [] true "g" "Absent" 0).ret = -1 ∧
    (efivarfs_del_variable wDel [] true "g" "Absent" 0).world.esp ≠ wDel.esp ∧
    Event.espWrite (sbytes "/boot/efi/NvVars") [1, 2, 3] ∈
      (efivarfs_del_variable wDel [] true "g" "Absent" 0).events := by
  decide

/-- C6 (amended): deleting a key with no backing file propagates the
unlink NotFound error (-1 with ENOENT reaching the sync step), but the
persistence sync is still triggered unconditionally: the whole result is
exactly that of running `efi_update_var_file`, which rewrites the
boot-partition file whenever the reserved filename variable resolves to an
existing candidate; the variable store itself is untouched. -/
theorem C6_del_missing_triggers_sync (w : World) (junk : List Nat)
    (flagsOk : Bool) (guid name : String) (errno0 : Nat)
    (habs : assoc w.dir (make_efivarfs_path guid name) = none) :
    efivarfs_del_variable w junk flagsOk guid name errno0 =
      { ret := -1, errno := (efi_update_var_file w junk ENOENT).errno,
        world := (efi_update_var_file w junk ENOENT).world,
        events := Event.unlinkEv (make_efivarfs_path guid name) ::
          (efi_update_var_file w junk ENOENT).events,
        exited := (efi_update_var_file w junk ENOENT).exited } := by
  unfold efivarfs_del_variable efivarfs_set_immutable
  dsimp only
  rw [habs]
  dsimp only
  rw [habs]

/-- C6 witness: the amended statement at the concrete world of the
counterexample. -/
theorem C6_witness :
    efivarfs_del_variable wDel [1] true "g" "Absent" 0 =
      { ret := -1, errno := (efi_update_var_file wDel [1] ENOENT).errno,
        world := (efi_update_var_file wDel [1] ENOENT).world,
        events := Event.unlinkEv "/sys/firmware/efi/efivars/Absent-g" ::
          (efi_update_var_file wDel [1] ENOENT).events,
        exited := (efi_update_var_file wDel [1] ENOENT).exited } :=
  C6_del_missing_triggers_sync wDel [1] true "g" "Absent" 0 (by decide)

/-- C2: in set, when the initial read-only open succeeded, the write
descriptor is re-fstated and its device and inode numbers are compared
against those captured from the read-only descriptor; whenever either
differs, set fails with the race error EINVAL, performs no write (no
variable-file write and no ESP write occurs), and the replacement file's
inode is untouched. -/
theorem C2_race_detected (w : World) (env : SetEnv) (guid name : String)
    (data : List Nat) (dataSize attributes mode errno0 : Nat)
    (rid wid : FileId) (r : SetResult)
    (hn : name.length ≤ 1024) (hds : dataSize ≤ SIZE_MAX - 4)
    (hr : assoc w.dir (make_efivarfs_path guid name) = some rid)
    (hfr : env.fstatROk = true) (hfw : env.fstatWOk = true)
    (hw : assoc (env.interfere (setRPhase w env rid errno0).world).dir
      (make_efivarfs_path guid name) = some wid)
    (hne : rid ≠ wid)
    (hrr : r = efivarfs_set_variable w env guid name data dataSize attributes
      mode errno0) :
    r.ret = -1 ∧ r.errno = EINVAL ∧ noWriteEvents r.events = true ∧
    assoc r.world.inodes wid =
      assoc (env.interfere (setRPhase w env rid errno0).world).inodes wid := by
  have hff := setRPhase_fstatFailed w env rid errno0 hfr
  subst hrr
  unfold efivarfs_set_variable
  rw [if_neg (by omega), if_neg (by omega)]
  dsimp only
  rw [hr]
  dsimp only
  rw [if_neg (by simp [hff])]
  rw [hw]
  dsimp only
  rw [if_neg (by simp [hfw]), if_pos hne]
  refine ⟨setCleanup_ret _ _ _ _ _ _ _ _ _, setCleanup_errno _ _ _ _ _ _ _ _ _,
    ?_, ?_⟩
  · apply setCleanup_noWrite
    have h1 := setRPhase_noWrite w env rid errno0
    unfold noWriteEvents at h1 ⊢
    simp [h1]
  · apply setCleanup_assoc_inodes
    intro fd hfd
    rw [setRPhase_restoreFd_eq w env rid errno0 fd hfd]
    exact hne

/-- C2 witness: a concrete interleaving replacing `Var-g` with a fresh
inode between the two opens is detected and aborted. -/
theorem C2_witness :
    (efivarfs_set_variable wOne envRace "g" "Var" [1] 1 7 448 0).ret = -1 ∧
    (efivarfs_set_variable wOne envRace "g" "Var" [1] 1 7 448 0).errno =
      EINVAL ∧
    noWriteEvents
      (efivarfs_set_variable wOne envRace "g" "Var" [1] 1 7 448 0).events =
      true ∧
    assoc (efivarfs_set_variable wOne envRace "g" "Var" [1] 1 7 448
        0).world.inodes (2, 2) =
      assoc (envRace.interfere (setRPhase wOne envRace (1, 1) 0).world).inodes
        (2, 2) :=
  C2_race_detected wOne envRace "g" "Var" [1] 1 7 448 0 (1, 1) (2, 2) _
    (by decide) (by decide) (by decide) (by decide) (by decide) (by decide)
    (by decide) rfl

/-- C3: in every execution of set that returns (the persistence-sync abort
path calls exit(1) and never reaches the cleanup) in which the immutable
flag was cleared on a descriptor -- the read descriptor of a pre-existing
immutable file, or the write descriptor of a freshly created file the
kernel marked immutable -- the cleanup unconditionally attempts to restore
the recorded original flags on that same descriptor, on both the success
and the failure exit paths. -/
theorem C3_cleared_flag_always_restored (w : World) (env : SetEnv)
    (guid name : String) (data : List Nat)
    (dataSize attributes mode errno0 : Nat) (fd : FileId) (orig : Nat)
    (r : SetResult)
    (hrr : r = efivarfs_set_variable w env guid name data dataSize attributes
      mode errno0)
    (hexit : r.exited = false)
    (hclear : Event.clearImm fd orig ∈ r.events) :
    Event.restoreFlags (some fd) orig ∈ r.events := by
  subst hrr
  unfold efivarfs_set_variable at hexit hclear ⊢
  by_cases h1 : 1024 < name.length
  · rw [if_pos h1] at hclear
    simp at hclear
  · rw [if_neg h1] at hexit hclear ⊢
    by_cases h2 : SIZE_MAX - 4 < dataSize
    · rw [if_pos h2] at hclear
      simp at hclear
    · rw [if_neg h2] at hexit hclear ⊢
      try dsimp only at hexit hclear ⊢
      try dsimp only
      cases h0 : assoc w.dir (make_efivarfs_path guid name) with
      | some rid =>
        rw [h0] at hexit hclear
        try dsimp only at hexit hclear
        try dsimp only
        by_cases hb : (setRPhase w env rid errno0).fstatFailed = true
        · rw [if_pos hb] at hclear
          have h3 := setCleanup_mem_clear _ _ _ _ _ _ _ _ _ _ _ hclear
          rw [setRPhase_failed_events w env rid errno0 hb] at h3
          simp at h3
        · rw [if_neg hb] at hexit hclear ⊢
          try dsimp only
          cases hw0 : assoc (env.interfere (setRPhase w env rid
              errno0).world).dir (make_efivarfs_path guid name) with
          | none =>
            rw [hw0] at hclear
            try dsimp only at hclear
            try dsimp only
            have h3 := setCleanup_mem_clear _ _ _ _ _ _ _ _ _ _ _ hclear
            have h4 := clear_mem_evs1 _ _ _ _ _ h3
            obtain ⟨hrf, hoa⟩ := setRPhase_clear_inv w env rid errno0 fd orig h4
            rw [← hrf, ← hoa]
            exact setCleanup_has_restore _ _ _ _ _ _ _ _ _
          | some wid =>
            rw [hw0] at hexit hclear
            try dsimp only at hexit hclear
            try dsimp only
            by_cases hfw0 : env.fstatWOk = true
            · rw [if_neg (by simp [hfw0])] at hexit hclear ⊢
              by_cases hrw : rid = wid
              · rw [if_neg (by simp [hrw])] at hexit hclear ⊢
                have h3 := setWriteAndFinish_mem_clear _ _ _ _ _ _ _ _ _ _
                  _ _ hclear
                have h4 := clear_mem_evs1 _ _ _ _ _ h3
                obtain ⟨hrf, hoa⟩ := setRPhase_clear_inv w env rid errno0 fd
                  orig h4
                rw [← hrf, ← hoa]
                exact setWriteAndFinish_restore _ _ _ _ _ _ _ _ _ _ hexit
              · rw [if_pos hrw] at hclear ⊢
                have h3 := setCleanup_mem_clear _ _ _ _ _ _ _ _ _ _ _ hclear
                have h4 := clear_mem_evs1 _ _ _ _ _ h3
                obtain ⟨hrf, hoa⟩ := setRPhase_clear_inv w env rid errno0 fd
                  orig h4
                rw [← hrf, ← hoa]
                exact setCleanup_has_restore _ _ _ _ _ _ _ _ _
            · rw [if_pos hfw0] at hclear ⊢
              have h3 := setCleanup_mem_clear _ _ _ _ _ _ _ _ _ _ _ hclear
              have h4 := clear_mem_evs1 _ _ _ _ _ h3
              obtain ⟨hrf, hoa⟩ := setRPhase_clear_inv w env rid errno0 fd
                orig h4
              rw [← hrf, ← hoa]
              exact setCleanup_has_restore _ _ _ _ _ _ _ _ _
      | none =>
        rw [h0] at hexit hclear
        try dsimp only at hexit hclear
        try dsimp only
        cases hw0 : assoc (env.interfere w).dir
            (make_efivarfs_path guid name) with
        | some wid2 =>
          rw [hw0] at hclear
          try dsimp only at hclear
          try dsimp only
          try dsimp only at hclear
          have h3 := setCleanup_mem_clear _ _ _ _ _ _ _ _ _ _ _ hclear
          simp at h3
        | none =>
          rw [hw0] at hexit hclear
          try dsimp only at hexit hclear
          try dsimp only
          have h3 := setWriteAndFinish_mem_clear _ _ _ _ _ _ _ _ _ _ _ _
            hclear
          obtain ⟨hrf, hoa⟩ := create_clear_inv _ _ _ _ _ _ _ _ _ _ h3
          rw [← hrf, ← hoa]
          exact setWriteAndFinish_restore _ _ _ _ _ _ _ _ _ _ hexit

/-- C3 witness: setting a pre-existing immutable variable file clears the
flag on the read descriptor and the cleanup restores the original flag
word on that descriptor. -/
theorem C3_witness :
    Event.restoreFlags (some (1, 1)) 16 ∈
      (efivarfs_set_variable wImm envBenign "g" "Var" [1, 2] 2 7 448
        0).events :=
  C3_cleared_flag_always_restored wImm envBenign "g" "Var" [1, 2] 2 7 448 0
    (1, 1) 16 _ rfl (by decide) (by decide)

/-- C4: for every failing get or set call, the error code visible to the
caller is the one produced by the failing syscall, unchanged by the
cleanup syscalls (close, unlink, flag-restore ioctl, free) issued
afterwards: a get on a missing file returns the open's ENOENT; a get whose
attribute read or payload read fails with errno e returns e; a set whose
write fails with the oracle errno on a freshly created file returns
exactly that errno even though the cleanup then unlinks the partial file
(the unlink event is in the trace) and issues the flag-restore ioctl. -/
theorem C4_errno_preserved (w : World) (euid : Nat) (guid name : String)
    (e errno0 : Nat) (env : SetEnv) (data : List Nat)
    (dataSize attributes mode : Nat) :
    (assoc w.dir (make_efivarfs_path guid name) = none →
      (efivarfs_get_variable w euid none none guid name errno0).ret = -1 ∧
      (efivarfs_get_variable w euid none none guid name errno0).errno =
        ENOENT) ∧
    (∀ fid ino, assoc w.dir (make_efivarfs_path guid name) = some fid →
      assoc w.inodes fid = some ino →
      (efivarfs_get_variable w euid (some e) none guid name errno0).ret =
        -1 ∧
      (efivarfs_get_variable w euid (some e) none guid name errno0).errno =
        e) ∧
    (∀ fid ino, assoc w.dir (make_efivarfs_path guid name) = some fid →
      assoc w.inodes fid = some ino →
      (efivarfs_get_variable w euid none (some e) guid name errno0).ret =
        -1 ∧
      (efivarfs_get_variable w euid none (some e) guid name errno0).errno =
        e) ∧
    (name.length ≤ 1024 → dataSize ≤ SIZE_MAX - 4 →
      assoc w.dir (make_efivarfs_path guid name) = none →
      assoc (env.interfere w).dir (make_efivarfs_path guid name) = none →
      env.writeOk = false →
      (efivarfs_set_variable w env guid name data dataSize attributes mode
        errno0).ret = -1 ∧
      (efivarfs_set_variable w env guid name data dataSize attributes mode
        errno0).errno = env.failErrno ∧
      Event.unlinkEv (make_efivarfs_path guid name) ∈
        (efivarfs_set_variable w env guid name data dataSize attributes mode
          errno0).events) := by
  refine ⟨?_, ?_, ?_, ?_⟩
  · intro h
    constructor <;> simp [efivarfs_get_variable, h]
  · intro fid ino hd hi
    constructor <;> simp [efivarfs_get_variable, hd, hi]
  · intro fid ino hd hi
    constructor <;> simp [efivarfs_get_variable, hd, hi]
  · intro h1 h2 habs habs2 hwo
    unfold efivarfs_set_variable
    rw [if_neg (by omega), if_neg (by omega)]
    dsimp only
    rw [habs]
    dsimp only
    rw [habs2]
    dsimp only
    unfold setWriteAndFinish
    rw [if_pos (by simp [hwo])]
    exact ⟨setCleanup_ret _ _ _ _ _ _ _ _ _,
      setCleanup_errno _ _ _ _ _ _ _ _ _,
      setCleanup_unlink_mem _ _ _ _ _ _ _ _ _ ⟨rfl, rfl, by simp⟩⟩

/-- C4 witness: the four failing scenarios at concrete worlds; the set case
fails with ENOSPC (28) from the write and the caller sees exactly 28 after
the cleanup unlink and flag-restore ioctl. -/
theorem C4_witness :
    ((efivarfs_get_variable wEmpty 0 none none "g" "Var" 0).ret = -1 ∧
      (efivarfs_get_variable wEmpty 0 none none "g" "Var" 0).errno =
        ENOENT) ∧
    ((efivarfs_get_variable wOne 0 (some 5) none "g" "Var" 0).ret = -1 ∧
      (efivarfs_get_variable wOne 0 (some 5) none "g" "Var" 0).errno = 5) ∧
    ((efivarfs_get_variable wOne 0 none (some 13) "g" "Var" 0).ret = -1 ∧
      (efivarfs_get_variable wOne 0 none (some 13) "g" "Var" 0).errno =
        13) ∧
    ((efivarfs_set_variable wEmpty envWriteFail "g" "Var" [1] 1 7 448
        0).ret = -1 ∧
      (efivarfs_set_variable wEmpty envWriteFail "g" "Var" [1] 1 7 448
        0).errno = 28 ∧
      Event.unlinkEv "/sys/firmware/efi/efivars/Var-g" ∈
        (efivarfs_set_variable wEmpty envWriteFail "g" "Var" [1] 1 7 448
          0).events) :=
  ⟨(C4_errno_preserved wEmpty 0 "g" "Var" 5 0 envWriteFail [1] 1 7 448).1
     (by decide),
   (C4_errno_preserved wOne 0 "g" "Var" 5 0 envWriteFail [1] 1 7 448).2.1
     (1, 1) { content := [7, 0, 0, 0, 1, 2, 3], flags := 0, mode := 384 }
     (by decide) (by decide),
   (C4_errno_preserved wOne 0 "g" "Var" 13 0 envWriteFail [1] 1 7 448).2.2.1
     (1, 1) { content := [7, 0, 0, 0, 1, 2, 3], flags := 0, mode := 384 }
     (by decide) (by decide),
   (C4_errno_preserved wEmpty 0 "g" "Var" 5 0 envWriteFail [1] 1 7
       448).2.2.2 (by decide) (by decide) (by decide) (by decide)
     (by decide)⟩

/-- C1: round trip: in a sequential execution (no interference from other
processes) on a well-formed world, every successful set(k, d, a, m)
followed by get(k) returns exactly (a, d): the write buffer is the 4-byte
native-order attribute word followed by the raw data, and get reads the
4-byte word and then the remaining payload. -/
theorem C1_set_get_roundtrip (w : World) (env : SetEnv) (guid name : String)
    (data : List Nat) (dataSize attributes mode errno0 euid e1 : Nat)
    (hid : env.interfere = id) (hwf : WF w) (ha : attributes < 2 ^ 32)
    (hret : (efivarfs_set_variable w env guid name data dataSize attributes
      mode errno0).ret = 0) :
    (efivarfs_get_variable (efivarfs_set_variable w env guid name data
      dataSize attributes mode errno0).world euid none none guid name
      e1).ret = 0 ∧
    (efivarfs_get_variable (efivarfs_set_variable w env guid name data
      dataSize attributes mode errno0).world euid none none guid name
      e1).attributes = attributes ∧
    (efivarfs_get_variable (efivarfs_set_variable w env guid name data
      dataSize attributes mode errno0).world euid none none guid name
      e1).dataSize = data.length ∧
    (efivarfs_get_variable (efivarfs_set_variable w env guid name data
      dataSize attributes mode errno0).world euid none none guid name
      e1).data.take
      (efivarfs_get_variable (efivarfs_set_variable w env guid name data
        dataSize attributes mode errno0).world euid none none guid name
        e1).dataSize = data := by
  unfold efivarfs_set_variable at hret ⊢
  by_cases h1 : 1024 < name.length
  · rw [if_pos h1] at hret
    dsimp only at hret
    exact absurd hret (by decide)
  · rw [if_neg h1] at hret ⊢
    by_cases h2 : SIZE_MAX - 4 < dataSize
    · rw [if_pos h2] at hret
      dsimp only at hret
      exact absurd hret (by decide)
    · rw [if_neg h2] at hret ⊢
      try dsimp only at hret
      try dsimp only
      cases h0 : assoc w.dir (make_efivarfs_path guid name) with
      | some rid =>
        rw [h0] at hret
        try dsimp only at hret
        try dsimp only
        by_cases hb : (setRPhase w env rid errno0).fstatFailed = true
        · rw [if_pos hb] at hret
          rw [setCleanup_ret] at hret
          exact absurd hret (by decide)
        · rw [if_neg hb] at hret ⊢
          cases hw0 : assoc (env.interfere (setRPhase w env rid
              errno0).world).dir (make_efivarfs_path guid name) with
          | none =>
            rw [hw0] at hret
            try dsimp only at hret
            rw [setCleanup_ret] at hret
            exact absurd hret (by decide)
          | some wid =>
            rw [hw0] at hret
            try dsimp only at hret
            try dsimp only
            by_cases hfw0 : env.fstatWOk = true
            · rw [if_neg (by simp [hfw0])] at hret ⊢
              by_cases hrw : rid = wid
              · rw [if_neg (by simp [hrw])] at hret ⊢
                have hw0w : assoc w.dir (make_efivarfs_path guid name) =
                    some wid := by
                  have h := hw0
                  rw [hid] at h
                  simp only [id_eq] at h
                  rw [setRPhase_dir] at h
                  exact h
                have hino : (assoc (env.interfere (setRPhase w env rid
                    errno0).world).inodes wid).isSome := by
                  rw [hid]
                  simp only [id_eq]
                  rw [setRPhase_isSome]
                  exact hwf _ (assoc_mem hw0w)
                obtain ⟨hdir, hcontent⟩ := setWriteAndFinish_success _ _ _
                  _ _ _ _ _ _ _ hw0 hino hret
                cases hass : assoc (setWriteAndFinish env
                    (make_efivarfs_path guid name)
                    (env.interfere (setRPhase w env rid errno0).world)
                    (some rid) wid (setRPhase w env rid errno0).restoreFd
                    (setRPhase w env rid errno0).origAttrs
                    (leEnc4 attributes ++ data)
                    (setRPhase w env rid errno0).errno
                    (Event.openRO (make_efivarfs_path guid name) ::
                      (setRPhase w env rid errno0).events ++
                      [Event.openW (make_efivarfs_path guid name) false
                        mode])).world.inodes wid with
                | none =>
                  rw [hass] at hcontent
                  simp at hcontent
                | some ino2 =>
                  rw [hass] at hcontent
                  simp only [Option.map_some'] at hcontent
                  injection hcontent with hc2
                  exact get_after_write _ euid guid name e1 wid ino2
                    attributes data hdir hass hc2 ha
              · rw [if_pos hrw] at hret
                rw [setCleanup_ret] at hret
                exact absurd hret (by decide)
            · rw [if_pos hfw0] at hret
              rw [setCleanup_ret] at hret
              exact absurd hret (by decide)
      | none =>
        rw [h0] at hret
        try dsimp only at hret
        try dsimp only
        cases hw0 : assoc (env.interfere w).dir
            (make_efivarfs_path guid name) with
        | some wid2 =>
          rw [hw0] at hret
          try dsimp only at hret
          rw [setCleanup_ret] at hret
          exact absurd hret (by decide)
        | none =>
          rw [hw0] at hret
          try dsimp only at hret
          try dsimp only
          have hdirm : assoc (efivarfs_make_fd_mutable
              (createFile (env.interfere w) (make_efivarfs_path guid name)
                env.newId
                { content := [],
                  flags := if env.createdImmutable = true then
                    FS_IMMUTABLE_FL else 0, mode := mode })
              env.newId env.wGetflagsOk env.wSetflagsOk env.failErrno
              ENOENT).world.dir (make_efivarfs_path guid name) =
              some env.newId := by
            rw [make_fd_mutable_dir]
            simp [createFile, assoc_cons]
          have hinom : (assoc (efivarfs_make_fd_mutable
              (createFile (env.interfere w) (make_efivarfs_path guid name)
                env.newId
                { content := [],
                  flags := if env.createdImmutable = true then
                    FS_IMMUTABLE_FL else 0, mode := mode })
              env.newId env.wGetflagsOk env.wSetflagsOk env.failErrno
              ENOENT).world.inodes env.newId).isSome := by
            rw [make_fd_mutable_isSome]
            simp [createFile, assoc_cons]
          obtain ⟨hdir, hcontent⟩ := setWriteAndFinish_success _ _ _ _ _ _
            _ _ _ _ hdirm hinom hret
          cases hass : assoc (setWriteAndFinish env
              (make_efivarfs_path guid name)
              (efivarfs_make_fd_mutable
                (createFile (env.interfere w) (make_efivarfs_path guid name)
                  env.newId
                  { content := [],
                    flags := if env.createdImmutable = true then
                      FS_IMMUTABLE_FL else 0, mode := mode })
                env.newId env.wGetflagsOk env.wSetflagsOk env.failErrno
                ENOENT).world
              none env.newId
              (if (efivarfs_make_fd_mutable
                  (createFile (env.interfere w)
                    (make_efivarfs_path guid name) env.newId
                    { content := [],
                      flags := if env.createdImmutable = true then
                        FS_IMMUTABLE_FL else 0, mode := mode })
                  env.newId env.wGetflagsOk env.wSetflagsOk env.failErrno
                  ENOENT).rc = 0 ∧
                (efivarfs_make_fd_mutable
                  (createFile (env.interfere w)
                    (make_efivarfs_path guid name) env.newId
                    { content := [],
                      flags := if env.createdImmutable = true then
                        FS_IMMUTABLE_FL else 0, mode := mode })
                  env.newId env.wGetflagsOk env.wSetflagsOk env.failErrno
                  ENOENT).origAttrs &&& FS_IMMUTABLE_FL ≠ 0 then
                some env.newId else none)
              (efivarfs_make_fd_mutable
                (createFile (env.interfere w) (make_efivarfs_path guid name)
                  env.newId
                  { content := [],
                    flags := if env.createdImmutable = true then
                      FS_IMMUTABLE_FL else 0, mode := mode })
                env.newId env.wGetflagsOk env.wSetflagsOk env.failErrno
                ENOENT).origAttrs
              (leEnc4 attributes ++ data)
              (efivarfs_make_fd_mutable
                (createFile (env.interfere w) (make_efivarfs_path guid name)
                  env.newId
                  { content := [],
                    flags := if env.createdImmutable = true then
                      FS_IMMUTABLE_FL else 0, mode := mode })
                env.newId env.wGetflagsOk env.wSetflagsOk env.failErrno
                ENOENT).errno
              ([Event.openRO (make_efivarfs_path guid name),
                Event.openW (make_efivarfs_path guid name) true mode] ++
                [Event.created (make_efivarfs_path guid name) mode] ++
                (if (efivarfs_make_fd_mutable
                    (createFile (env.interfere w)
                      (make_efivarfs_path guid name) env.newId
                      { content := [],
                        flags := if env.createdImmutable = true then
                          FS_IMMUTABLE_FL else 0, mode := mode })
                    env.newId env.wGetflagsOk env.wSetflagsOk env.failErrno
                    ENOENT).cleared = true then
                  [Event.clearImm env.newId (efivarfs_make_fd_mutable
                    (createFile (env.interfere w)
                      (make_efivarfs_path guid name) env.newId
                      { content := [],
                        flags := if env.createdImmutable = true then
                          FS_IMMUTABLE_FL else 0, mode := mode })
                    env.newId env.wGetflagsOk env.wSetflagsOk env.failErrno
                    ENOENT).origAttrs]
                  else []))).world.inodes env.newId with
          | none =>
            rw [hass] at hcontent
            simp at hcontent
          | some ino2 =>
            rw [hass] at hcontent
            simp only [Option.map_some'] at hcontent
            injection hcontent with hc2
            exact get_after_write _ euid guid name e1 env.newId ino2
              attributes data hdir hass hc2 ha

/-- C1 witness: the spec scenario: set of attributes 7, data [1, 2, 3],
mode 0o600 on a fresh key, then get, returns attributes 7 and data
[1, 2, 3]. -/
theorem C1_witness :
    (efivarfs_get_variable (efivarfs_set_variable wEmpty envBenign
      "00000000-0000-0000-0000-000000000000" "TestVar" [1, 2, 3] 3 7 384
      0).world 0 none none "00000000-0000-0000-0000-000000000000" "TestVar"
      0).ret = 0 ∧
    (efivarfs_get_variable (efivarfs_set_variable wEmpty envBenign
      "00000000-0000-0000-0000-000000000000" "TestVar" [1, 2, 3] 3 7 384
      0).world 0 none none "00000000-0000-0000-0000-000000000000" "TestVar"
      0).attributes = 7 ∧
    (efivarfs_get_variable (efivarfs_set_variable wEmpty envBenign
      "00000000-0000-0000-0000-000000000000" "TestVar" [1, 2, 3] 3 7 384
      0).world 0 none none "00000000-0000-0000-0000-000000000000" "TestVar"
      0).dataSize = 3 ∧
    (efivarfs_get_variable (efivarfs_set_variable wEmpty envBenign
      "00000000-0000-0000-0000-000000000000" "TestVar" [1, 2, 3] 3 7 384
      0).world 0 none none "00000000-0000-0000-0000-000000000000" "TestVar"
      0).data.take
      (efivarfs_get_variable (efivarfs_set_variable wEmpty envBenign
        "00000000-0000-0000-0000-000000000000" "TestVar" [1, 2, 3] 3 7 384
        0).world 0 none none "00000000-0000-0000-0000-000000000000"
        "TestVar" 0).dataSize = [1, 2, 3] := by
  have h := C1_set_get_roundtrip wEmpty envBenign
    "00000000-0000-0000-0000-000000000000" "TestVar" [1, 2, 3] 3 7 384 0 0 0
    rfl (by decide) (by decide) (by decide)
  exact ⟨h.1, h.2.1, h.2.2.1, h.2.2.2⟩

end Efivarfs
